import Mathlib

/-
Verification development for the probe-cli engine core: the session state
machine (src/unnamed/part_000, package engine) and the connection-tactics
policies of package enginenetx (whose implementation is exercised by the
test in src/unnamed/part_001).

Conventions of the shallow embedding:
- Go contexts are represented by the value `ctx.Err()` would return at the
  relevant instant: `Option GoErr` (`none` = context alive).
- Collaborators living outside the embedded sources (the geolocate task,
  probeservices.TryAll, tunnel.Start, the remote check-in API) are oracle
  parameters, so theorems quantify over every possible behaviour of theirs.
- Go `nil` pointers are `Option.none`; fallible calls return `Except`.
-/

namespace ProbeCli

/-- Errors that flow through the embedded code, mirroring Go error values. -/
inductive GoErr where
  | alreadyUsingProxy
  | allProbeServicesFailed
  | ctxCanceled
  | mocked (msg : String)
deriving DecidableEq

/-- Location lookup results (geolocate.Results), as used by the session. -/
structure GeoResults where
  ASN : Nat
  CountryCode : String
  NetworkName : String
  ProbeIP : String
  ResolverASN : Nat
  ResolverIP : String
  ResolverNetworkName : String
deriving DecidableEq

/-- Probe-service endpoint (model.Service). The Go field `Type` is rendered
`ServiceType` because `Type` is reserved in Lean. -/
structure Service where
  Address : String
  ServiceType : String
  Front : String
deriving DecidableEq

/-- Outcome of benchmarking one candidate probe service
(probeservices.Candidate, as described by the spec's selector section). -/
structure Candidate where
  Endpoint : Service
  Duration : Nat
  Err : Option GoErr
  TestHelpers : List (String × List Service)
deriving DecidableEq

/-- Tunnel handle: the only capability the session uses is the SOCKS5 URL. -/
structure Tunnel where
  socks5ProxyURL : String
deriving DecidableEq

/-- Probe-services client handle returned by NewProbeServicesClient. -/
structure Client where
  endpoint : Service
deriving DecidableEq

/-- Session state: the fields of engine.Session (part_000 lines 44-86) that
the verified operations read or write. The platform name returned by
`platform.Name()` is compiled into the binary, hence a per-session constant
modelled as a field. Mutexes, loggers, byte counters and transports carry no
state visible to the claims. -/
structure Session where
  location : Option GeoResults := none
  selectedProbeService : Option Service := none
  availableTestHelpers : List (String × List Service) := []
  queryProbeServicesCount : Nat := 0
  softwareName : String := ""
  softwareVersion : String := ""
  platformName : String := ""
  proxyURL : Option String := none
  tunnel : Option Tunnel := none
  tunnelName : String := ""
deriving DecidableEq

/-- Modelled from the spec: geolocate's compile-time default probe ASN (the
geolocate package is outside src/; the spec pins only `DefaultProbeCC`). -/
def DefaultProbeASN : Nat := 0

/-- Modelled from the spec: `DefaultProbeCC = "ZZ"`. -/
def DefaultProbeCC : String := "ZZ"

/-- Modelled from the spec: geolocate's default probe network name. -/
def DefaultProbeNetworkName : String := ""

/-- Modelled from the spec: geolocate's default probe IP placeholder. -/
def DefaultProbeIP : String := "127.0.0.1"

/-- Modelled from the spec: geolocate's default resolver ASN. -/
def DefaultResolverASN : Nat := 0

/-- Modelled from the spec: geolocate's default resolver IP placeholder. -/
def DefaultResolverIP : String := "127.0.0.2"

/-- Modelled from the spec: geolocate's default resolver network name. -/
def DefaultResolverNetworkName : String := ""

/-- Session.ProbeASN (part_000 lines 429-437). -/
def Session.ProbeASN (s : Session) : Nat :=
  match s.location with
  | some l => l.ASN
  | none => DefaultProbeASN

/-- Session.ProbeASNString (part_000 lines 424-426): "AS%d". -/
def Session.ProbeASNString (s : Session) : String :=
  "AS" ++ toString s.ProbeASN

/-- Session.ProbeCC (part_000 lines 440-448). -/
def Session.ProbeCC (s : Session) : String :=
  match s.location with
  | some l => l.CountryCode
  | none => DefaultProbeCC

/-- Session.ProbeNetworkName (part_000 lines 451-459). -/
def Session.ProbeNetworkName (s : Session) : String :=
  match s.location with
  | some l => l.NetworkName
  | none => DefaultProbeNetworkName

/-- Session.ProbeIP (part_000 lines 462-470). -/
def Session.ProbeIP (s : Session) : String :=
  match s.location with
  | some l => l.ProbeIP
  | none => DefaultProbeIP

/-- Session.ResolverASN (part_000 lines 483-491). -/
def Session.ResolverASN (s : Session) : Nat :=
  match s.location with
  | some l => l.ResolverASN
  | none => DefaultResolverASN

/-- Session.ResolverIP (part_000 lines 494-502). -/
def Session.ResolverIP (s : Session) : String :=
  match s.location with
  | some l => l.ResolverIP
  | none => DefaultResolverIP

/-- Session.ResolverNetworkName (part_000 lines 505-513). -/
def Session.ResolverNetworkName (s : Session) : String :=
  match s.location with
  | some l => l.ResolverNetworkName
  | none => DefaultResolverNetworkName

/-- Session.Platform (part_000 lines 419-421): returns platform.Name(),
a compiled-in constant modelled as the session field `platformName`. -/
def Session.Platform (s : Session) : String :=
  s.platformName

/-- Session.SoftwareName (part_000 lines 516-518). -/
def Session.SoftwareName (s : Session) : String :=
  s.softwareName

/-- Session.SoftwareVersion (part_000 lines 521-523). -/
def Session.SoftwareVersion (s : Session) : String :=
  s.softwareVersion

/-- One connection-establishment tactic (enginenetx httpsDialerTactic as
asserted field-by-field in src/unnamed/part_001). InitialDelay is a
Go duration in nanoseconds. -/
structure Tactic where
  Address : String
  Port : String
  InitialDelay : Nat
  SNI : String
  VerifyHostname : String
deriving DecidableEq

/-- Modelled from the spec: the DNS policy (enginenetx dnsPolicy, outside
src/). `lookup` is the outcome of resolver.LookupHost(ctx, domain). On
success one tactic per resolved address with SNI and VerifyHostname both
equal to the requested domain and zero initial delay; on DNS failure the
stream is empty. The return type `List Tactic` has no error channel:
failure cannot be reported out-of-band. -/
def dnsPolicyLookupTactics (lookup : Except GoErr (List String))
    (domain port : String) : List Tactic :=
  match lookup with
  | .error _ => []
  | .ok addrs =>
      addrs.map (fun addr =>
        { Address := addr, Port := port, InitialDelay := 0,
          SNI := domain, VerifyHostname := domain })

/-- Modelled from the spec: the compiled-in bridge address set for the
bridged domain api.ooni.io (the test pins the single bridge
162.55.247.208). -/
def bridgesAddrs : List String := ["162.55.247.208"]

/-- Modelled from the spec: the compiled-in set of innocuous decoy SNIs,
none equal to "api.ooni.io" (abbreviated here to three representatives of
the compiled-in list; only nonemptiness and inequality with the bridged
domain matter to the verified properties). -/
def bridgesDomains : List String :=
  ["www.example.org", "www.kernel.org", "theconversation.com"]

/-- Modelled from the spec: the compiled-in test-helper domain list
(bridgesPolicyTestHelpersDomains, referenced by src/unnamed/part_001). -/
def bridgesPolicyTestHelpersDomains : List String :=
  ["0.th.ooni.org", "1.th.ooni.org", "2.th.ooni.org", "3.th.ooni.org",
   "d33d1gs9kpq1c5.cloudfront.net"]

/-- Modelled from the spec: the bridge tactics for a bridged domain are the
cross product of the bridge addresses and the decoy SNIs, each with
`VerifyHostname = domain`, zero initial delay, and the requested port. -/
def bridgesTacticsForDomain (domain port : String) : List Tactic :=
  (bridgesAddrs.map (fun addr =>
    bridgesDomains.map (fun sni =>
      { Address := addr, Port := port, InitialDelay := 0,
        SNI := sni, VerifyHostname := domain }))).flatten

/-- Modelled from the spec: the bridges policy (enginenetx bridgesPolicy,
outside src/). For the bridged domain api.ooni.io it emits the bridge
tactics followed by every fallback tactic unchanged (bridge tactics first,
DNS-derived tactics last). For a test-helper domain it keeps the fallback
addresses but rewrites the SNI to a decoy, per the test expectations and
the spec's section on test-helper domains. For every other domain the
fallback passes through unchanged. `lookup` is the resolver outcome feeding
the DNS fallback policy. -/
def bridgesPolicyLookupTactics (lookup : Except GoErr (List String))
    (domain port : String) : List Tactic :=
  if domain = "api.ooni.io" then
    bridgesTacticsForDomain domain port ++
      dnsPolicyLookupTactics lookup domain port
  else if domain ∈ bridgesPolicyTestHelpersDomains then
    (dnsPolicyLookupTactics lookup domain port).map (fun t =>
      { t with SNI := bridgesDomains.headD "www.example.org" })
  else
    dnsPolicyLookupTactics lookup domain port

/-- Session.MaybeLookupLocationContext (part_000 lines 650-664): explicit
context pre-check, then memoised location lookup. `lookup` is the outcome
of lookupLocationContext (the test hook, or the geolocate task, both
outside src/); `ctxErr` is the value of ctx.Err() at entry. The location is
assigned only when the lookup succeeds. -/
def Session.MaybeLookupLocationContext (lookup : Except GoErr GeoResults)
    (ctxErr : Option GoErr) (s : Session) : Option GoErr × Session :=
  match ctxErr with
  | some e => (some e, s)
  | none =>
    match s.location with
    | some _ => (none, s)
    | none =>
      match lookup with
      | .error e => (some e, s)
      | .ok loc => (none, { s with location := some loc })

/-- Modelled from the spec: probeservices.SelectBest (outside src/) filters
the candidates to those with no error and returns the one with the smallest
duration, breaking ties in favour of the earlier candidate; nil when none
succeeded. -/
def SelectBest (cs : List Candidate) : Option Candidate :=
  (cs.filter (fun c => c.Err = none)).foldl
    (fun acc c =>
      match acc with
      | none => some c
      | some b => if c.Duration < b.Duration then some c else some b)
    none

/-- Session.MaybeLookupBackendsContext (part_000 lines 605-621). The
probeservices.TryAll benchmark lives outside src/, so its outcome is the
oracle `tryAll`: `tryAll ctxErr n` is the candidate list a benchmarking
pass numbered `n` would produce under context state `ctxErr`. The code runs
pass 0 exactly once; there is no context pre-check before the cache test. -/
def Session.MaybeLookupBackendsContext
    (tryAll : Option GoErr → Nat → List Candidate)
    (ctxErr : Option GoErr) (s : Session) : Option GoErr × Session :=
  if s.selectedProbeService.isSome then (none, s)
  else
    let s1 := { s with queryProbeServicesCount := s.queryProbeServicesCount + 1 }
    match SelectBest (tryAll ctxErr 0) with
    | none => (some .allProbeServicesFailed, s1)
    | some sel =>
        (none, { s1 with selectedProbeService := some sel.Endpoint,
                         availableTestHelpers := sel.TestHelpers })

/-- Session.NewProbeServicesClient (part_000 lines 372-386): explicit
context pre-check, then backends lookup, then location lookup, then the
client for the selected service. probeservices.NewClient (outside src/)
wraps the selected endpoint. The final branch on `selectedProbeService`
mirrors the pointer dereference `*s.selectedProbeService`, which is only
reached after a successful backends lookup. -/
def Session.NewProbeServicesClient
    (tryAll : Option GoErr → Nat → List Candidate)
    (lookup : Except GoErr GeoResults)
    (ctxErr : Option GoErr) (s : Session) : Except GoErr Client × Session :=
  match ctxErr with
  | some e => (.error e, s)
  | none =>
    match Session.MaybeLookupBackendsContext tryAll none s with
    | (some e, s1) => (.error e, s1)
    | (none, s1) =>
      match Session.MaybeLookupLocationContext lookup none s1 with
      | (some e, s2) => (.error e, s2)
      | (none, s2) =>
        match s2.selectedProbeService with
        | some svc => (.ok { endpoint := svc }, s2)
        | none => (.error (.mocked "nil selectedProbeService"), s2)

/-- Check-in web-connectivity options (model.CheckInConfigWebConnectivity):
a nil Go slice is `none`, a non-nil slice is `some`. -/
structure CheckInConfigWebConnectivity where
  CategoryCodes : Option (List String)
deriving DecidableEq

/-- Check-in request configuration (model.CheckInConfig), restricted to the
fields Session.CheckIn touches. -/
structure CheckInConfig where
  Platform : String
  ProbeASN : String
  ProbeCC : String
  RunType : String
  SoftwareName : String
  SoftwareVersion : String
  WebConnectivity : CheckInConfigWebConnectivity
deriving DecidableEq

/-- Check-in response (model.CheckInInfo): carries the URLs to measure. -/
structure CheckInInfo where
  URLs : List String
deriving DecidableEq

/-- Back-fill step of Session.CheckIn for Platform (part_000 lines 203-205). -/
def fillPlatform (s : Session) (cfg : CheckInConfig) : CheckInConfig :=
  if cfg.Platform = "" then { cfg with Platform := s.Platform } else cfg

/-- Back-fill step of Session.CheckIn for ProbeASN (part_000 lines 206-208). -/
def fillProbeASN (s : Session) (cfg : CheckInConfig) : CheckInConfig :=
  if cfg.ProbeASN = "" then { cfg with ProbeASN := s.ProbeASNString } else cfg

/-- Back-fill step of Session.CheckIn for ProbeCC (part_000 lines 209-211). -/
def fillProbeCC (s : Session) (cfg : CheckInConfig) : CheckInConfig :=
  if cfg.ProbeCC = "" then { cfg with ProbeCC := s.ProbeCC } else cfg

/-- Back-fill step of Session.CheckIn for RunType (part_000 lines 212-214). -/
def fillRunType (cfg : CheckInConfig) : CheckInConfig :=
  if cfg.RunType = "" then { cfg with RunType := "timed" } else cfg

/-- Back-fill step of Session.CheckIn for SoftwareName (part_000 lines
215-217). -/
def fillSoftwareName (s : Session) (cfg : CheckInConfig) : CheckInConfig :=
  if cfg.SoftwareName = "" then { cfg with SoftwareName := s.SoftwareName } else cfg

/-- Back-fill step of Session.CheckIn for SoftwareVersion (part_000 lines
218-220). -/
def fillSoftwareVersion (s : Session) (cfg : CheckInConfig) : CheckInConfig :=
  if cfg.SoftwareVersion = "" then { cfg with SoftwareVersion := s.SoftwareVersion }
  else cfg

/-- Back-fill step of Session.CheckIn for WebConnectivity.CategoryCodes
(part_000 lines 221-223). -/
def fillCategoryCodes (cfg : CheckInConfig) : CheckInConfig :=
  if cfg.WebConnectivity.CategoryCodes = none then
    { cfg with WebConnectivity := { CategoryCodes := some [] } }
  else cfg

/-- Default back-filling performed by Session.CheckIn (part_000 lines
203-223): the seven in-place assignments, in source order. -/
def checkInFillDefaults (s : Session) (cfg : CheckInConfig) : CheckInConfig :=
  fillCategoryCodes (fillSoftwareVersion s (fillSoftwareName s (fillRunType
    (fillProbeCC s (fillProbeASN s (fillPlatform s cfg))))))

/-- Session.CheckIn (part_000 lines 194-225). `lookupLoc` models
s.maybeLookupLocationContext and `newClient` models
s.newProbeServicesClientForCheckIn (both dispatch through test hooks in the
source, hence oracles over the session state); `remote` is the
probe-services client's CheckIn call. The third component of the result is
the caller's config after the call: the Go code mutates it in place through
the passed-in pointer. -/
def Session.CheckIn
    (lookupLoc : Session → Option GoErr × Session)
    (newClient : Session → Except GoErr Client × Session)
    (remote : Client → CheckInConfig → Except GoErr CheckInInfo)
    (s : Session) (cfg : CheckInConfig) :
    Except GoErr CheckInInfo × Session × CheckInConfig :=
  match lookupLoc s with
  | (some e, s1) => (.error e, s1, cfg)
  | (none, s1) =>
    match newClient s1 with
    | (.error e, s2) => (.error e, s2, cfg)
    | (.ok client, s2) =>
      let cfg2 := checkInFillDefaults s2 cfg
      (remote client cfg2, s2, cfg2)

/-- Outcome of tunnel.Start for a named tunnel. -/
inductive StartOutcome where
  | success (t : Option Tunnel)
  | failure (e : GoErr)
deriving DecidableEq

/-- Modelled from the spec: tunnel.Start (outside src/) returns no tunnel
and no error when the requested name is empty (part_000 line 350 records
that the returned tunnel may be nil exactly when name is ""); for any other
name the outcome comes from the tunnel implementation, here the oracle. -/
def tunnelStart (oracle : String → StartOutcome) (name : String) : StartOutcome :=
  if name = "" then .success none else oracle name

/-- Session.MaybeStartTunnel (part_000 lines 324-358): the tunnel state
machine over {proxyURL, tunnel, tunnelName}, with the three guard checks in
source order and the start attempt through `tunnelStart`. -/
def Session.MaybeStartTunnel (oracle : String → StartOutcome)
    (s : Session) (name : String) : Option GoErr × Session :=
  if s.tunnel.isSome ∧ s.tunnelName = name then (none, s)
  else if s.proxyURL.isSome ∧ name = "" then (none, s)
  else if s.proxyURL.isSome ∨ s.tunnel.isSome then (some .alreadyUsingProxy, s)
  else
    match tunnelStart oracle name with
    | .failure e => (some e, s)
    | .success none => (none, s)
    | .success (some t) =>
        (none, { s with tunnelName := name, tunnel := some t,
                        proxyURL := some t.socks5ProxyURL })

/-- C1: for a bridged (api.ooni.io) request on port 443 whose fallback DNS
lookup succeeds with exactly one address, the bridges-policy stream has at
least two tactics; the unique tactic carrying the resolved address together
with SNI "api.ooni.io" is the last element of the stream; every other
tactic carries the bridge address 162.55.247.208 with an SNI different from
"api.ooni.io"; and every tactic has VerifyHostname "api.ooni.io", port
"443" and zero initial delay. -/
theorem bridgesPolicy_apiOoniIo_dnsSuccess_shape (addr : String) :
    2 ≤ (bridgesPolicyLookupTactics (.ok [addr]) "api.ooni.io" "443").length ∧
    (bridgesPolicyLookupTactics (.ok [addr]) "api.ooni.io" "443").getLast?
      = some { Address := addr, Port := "443", InitialDelay := 0,
               SNI := "api.ooni.io", VerifyHostname := "api.ooni.io" } ∧
    (bridgesPolicyLookupTactics (.ok [addr]) "api.ooni.io" "443").countP
      (fun t => decide (t.Address = addr ∧ t.SNI = "api.ooni.io")) = 1 ∧
    (∀ t ∈ (bridgesPolicyLookupTactics (.ok [addr]) "api.ooni.io" "443").dropLast,
      t.Address = "162.55.247.208" ∧ t.SNI ≠ "api.ooni.io") ∧
    (∀ t ∈ bridgesPolicyLookupTactics (.ok [addr]) "api.ooni.io" "443",
      t.VerifyHostname = "api.ooni.io" ∧ t.Port = "443" ∧ t.InitialDelay = 0) := by
  have h : bridgesPolicyLookupTactics (.ok [addr]) "api.ooni.io" "443" =
      [{ Address := "162.55.247.208", Port := "443", InitialDelay := 0,
         SNI := "www.example.org", VerifyHostname := "api.ooni.io" },
       { Address := "162.55.247.208", Port := "443", InitialDelay := 0,
         SNI := "www.kernel.org", VerifyHostname := "api.ooni.io" },
       { Address := "162.55.247.208", Port := "443", InitialDelay := 0,
         SNI := "theconversation.com", VerifyHostname := "api.ooni.io" },
       { Address := addr, Port := "443", InitialDelay := 0,
         SNI := "api.ooni.io", VerifyHostname := "api.ooni.io" }] := rfl
  rw [h]
  refine ⟨by simp, rfl, ?_, ?_, ?_⟩
  · simp [List.countP_cons, Bool.decide_and]
  · intro t ht
    fin_cases ht <;> exact ⟨rfl, by decide⟩
  · intro t ht
    fin_cases ht <;> exact ⟨rfl, rfl, rfl⟩

/-- Witness for the bridged-domain stream shape at the concrete resolved
address 130.192.91.211 used by the source test. -/
theorem bridgesPolicy_apiOoniIo_dnsSuccess_shape_witness :
    2 ≤ (bridgesPolicyLookupTactics (.ok ["130.192.91.211"]) "api.ooni.io" "443").length ∧
    ({ Address := "162.55.247.208", Port := "443", InitialDelay := 0,
       SNI := "www.example.org", VerifyHostname := "api.ooni.io" } : Tactic).VerifyHostname
      = "api.ooni.io" := by
  have h := bridgesPolicy_apiOoniIo_dnsSuccess_shape "130.192.91.211"
  exact ⟨h.1, (h.2.2.2.2 _ (by decide)).1⟩

/-- C2: for a non-bridged, non-test-helper domain the policy emits zero
tactics when the resolver fails and otherwise exactly one tactic per
resolved address, of the form {Address = addr, Port = port,
InitialDelay = 0, SNI = domain, VerifyHostname = domain}; the stream type
has no error channel, so failure is only ever an empty stream. Stated both
for the DNS policy itself and for the bridges policy wrapping it, which
passes the fallback through unchanged for such domains. -/
theorem dnsPolicy_nonBridged_shape (domain port : String)
    (hb : domain ≠ "api.ooni.io")
    (hth : domain ∉ bridgesPolicyTestHelpersDomains) :
    (∀ e, dnsPolicyLookupTactics (.error e) domain port = [] ∧
          bridgesPolicyLookupTactics (.error e) domain port = []) ∧
    (∀ addrs, dnsPolicyLookupTactics (.ok addrs) domain port =
        addrs.map (fun addr =>
          { Address := addr, Port := port, InitialDelay := 0,
            SNI := domain, VerifyHostname := domain }) ∧
      bridgesPolicyLookupTactics (.ok addrs) domain port =
        addrs.map (fun addr =>
          { Address := addr, Port := port, InitialDelay := 0,
            SNI := domain, VerifyHostname := domain })) := by
  have hpass : ∀ lk, bridgesPolicyLookupTactics lk domain port
      = dnsPolicyLookupTactics lk domain port := by
    intro lk
    simp [bridgesPolicyLookupTactics, hb, hth]
  refine ⟨fun e => ⟨rfl, ?_⟩, fun addrs => ⟨rfl, ?_⟩⟩
  · rw [hpass]; rfl
  · rw [hpass]; rfl

/-- Witness for the non-bridged DNS behaviour at www.example.com:443,
matching the source test: one resolved address yields exactly one tactic,
and a resolver error yields the empty stream. -/
theorem dnsPolicy_nonBridged_shape_witness :
    bridgesPolicyLookupTactics (.ok ["93.184.216.34"]) "www.example.com" "443" =
      [{ Address := "93.184.216.34", Port := "443", InitialDelay := 0,
         SNI := "www.example.com", VerifyHostname := "www.example.com" }] ∧
    bridgesPolicyLookupTactics (.error (.mocked "dns failure")) "www.example.com" "443"
      = [] := by
  have h := dnsPolicy_nonBridged_shape "www.example.com" "443" (by decide) (by decide)
  exact ⟨by simpa using (h.2 ["93.184.216.34"]).2, (h.1 (.mocked "dns failure")).2⟩

/-- C3: MaybeStartTunnel implements the specified state machine on the
{proxyURL, tunnel, tunnelName} triple: the three no-op cases, the
ErrAlreadyUsingProxy case, and the start case (propagating failures with
unchanged state, and on success storing the tunnel, its name and its SOCKS5
proxy URL). The final conjunct shows the five cases cover every state
satisfying the session invariant that a live tunnel implies a configured
proxy URL, so the case list is exhaustive on reachable states. -/
theorem maybeStartTunnel_stateMachine (oracle : String → StartOutcome)
    (s : Session) (name : String) :
    (name = "" → s.proxyURL = none → s.tunnel = none →
      Session.MaybeStartTunnel oracle s name = (none, s)) ∧
    (name = "" → s.proxyURL ≠ none →
      Session.MaybeStartTunnel oracle s name = (none, s)) ∧
    (s.tunnel ≠ none → s.tunnelName = name →
      Session.MaybeStartTunnel oracle s name = (none, s)) ∧
    (name ≠ "" → ¬(s.tunnel ≠ none ∧ s.tunnelName = name) →
      (s.proxyURL ≠ none ∨ (s.tunnel ≠ none ∧ s.tunnelName ≠ name)) →
      Session.MaybeStartTunnel oracle s name = (some .alreadyUsingProxy, s)) ∧
    (name ≠ "" → s.proxyURL = none → s.tunnel = none →
      (∀ e, oracle name = .failure e →
        Session.MaybeStartTunnel oracle s name = (some e, s)) ∧
      (∀ t, oracle name = .success (some t) →
        Session.MaybeStartTunnel oracle s name =
          (none, { s with tunnelName := name, tunnel := some t,
                          proxyURL := some t.socks5ProxyURL }))) ∧
    ((s.tunnel ≠ none → s.proxyURL ≠ none) →
      ((name = "" ∧ s.proxyURL = none ∧ s.tunnel = none) ∨
       (name = "" ∧ s.proxyURL ≠ none) ∨
       (s.tunnel ≠ none ∧ s.tunnelName = name) ∨
       (name ≠ "" ∧ (s.proxyURL ≠ none ∨ (s.tunnel ≠ none ∧ s.tunnelName ≠ name))) ∨
       (name ≠ "" ∧ s.proxyURL = none ∧ s.tunnel = none))) := by
  refine ⟨?_, ?_, ?_, ?_, ?_, ?_⟩
  · intro h1 h2 h3
    simp [Session.MaybeStartTunnel, tunnelStart, h1, h2, h3]
  · intro h1 h2
    subst h1
    by_cases hc : s.tunnel.isSome ∧ s.tunnelName = ""
    · simp [Session.MaybeStartTunnel, hc]
    · simp [Session.MaybeStartTunnel, hc, Option.isSome_iff_ne_none, h2]
  · intro h1 h2
    simp [Session.MaybeStartTunnel, Option.isSome_iff_ne_none, h1, h2]
  · intro h1 h2 h3
    have hfst : ¬(s.tunnel.isSome ∧ s.tunnelName = name) := by
      simpa [Option.isSome_iff_ne_none] using h2
    have hthird : s.proxyURL.isSome ∨ s.tunnel.isSome := by
      rcases h3 with h | h
      · exact Or.inl (Option.isSome_iff_ne_none.mpr h)
      · exact Or.inr (Option.isSome_iff_ne_none.mpr h.1)
    simp [Session.MaybeStartTunnel, hfst, h1, hthird]
  · intro h1 h2 h3
    constructor
    · intro e he
      simp [Session.MaybeStartTunnel, tunnelStart, h1, h2, h3, he]
    · intro t ht
      simp [Session.MaybeStartTunnel, tunnelStart, h1, h2, h3, ht]
  · intro hinv
    by_cases hn : name = "" <;>
      cases hp : s.proxyURL <;>
        cases htu : s.tunnel <;>
          simp_all

/-- Witness for the tunnel state machine: starting a tor tunnel from the
pristine session succeeds and stores the tunnel triple. -/
theorem maybeStartTunnel_stateMachine_witness :
    Session.MaybeStartTunnel
      (fun _ => .success (some { socks5ProxyURL := "socks5://127.0.0.1:9050" }))
      {} "tor" =
      (none, { tunnelName := "tor",
               tunnel := some { socks5ProxyURL := "socks5://127.0.0.1:9050" },
               proxyURL := some "socks5://127.0.0.1:9050" }) := by
  have h := maybeStartTunnel_stateMachine
    (fun _ => .success (some { socks5ProxyURL := "socks5://127.0.0.1:9050" })) {} "tor"
  exact (h.2.2.2.2.1 (by decide) rfl rfl).2 _ rfl

/-- Update form of the Platform back-fill step. -/
theorem fillPlatform_eq (s : Session) (cfg : CheckInConfig) :
    fillPlatform s cfg =
      { cfg with Platform := if cfg.Platform = "" then s.Platform
                             else cfg.Platform } := by
  unfold fillPlatform; split <;> simp_all

/-- Update form of the ProbeASN back-fill step. -/
theorem fillProbeASN_eq (s : Session) (cfg : CheckInConfig) :
    fillProbeASN s cfg =
      { cfg with ProbeASN := if cfg.ProbeASN = "" then s.ProbeASNString
                             else cfg.ProbeASN } := by
  unfold fillProbeASN; split <;> simp_all

/-- Update form of the ProbeCC back-fill step. -/
theorem fillProbeCC_eq (s : Session) (cfg : CheckInConfig) :
    fillProbeCC s cfg =
      { cfg with ProbeCC := if cfg.ProbeCC = "" then s.ProbeCC
                            else cfg.ProbeCC } := by
  unfold fillProbeCC; split <;> simp_all

/-- Update form of the RunType back-fill step. -/
theorem fillRunType_eq (cfg : CheckInConfig) :
    fillRunType cfg =
      { cfg with RunType := if cfg.RunType = "" then "timed"
                            else cfg.RunType } := by
  unfold fillRunType; split <;> simp_all

/-- Update form of the SoftwareName back-fill step. -/
theorem fillSoftwareName_eq (s : Session) (cfg : CheckInConfig) :
    fillSoftwareName s cfg =
      { cfg with SoftwareName := if cfg.SoftwareName = "" then s.SoftwareName
                                 else cfg.SoftwareName } := by
  unfold fillSoftwareName; split <;> simp_all

/-- Update form of the SoftwareVersion back-fill step. -/
theorem fillSoftwareVersion_eq (s : Session) (cfg : CheckInConfig) :
    fillSoftwareVersion s cfg =
      { cfg with SoftwareVersion := if cfg.SoftwareVersion = "" then s.SoftwareVersion
                                    else cfg.SoftwareVersion } := by
  unfold fillSoftwareVersion; split <;> simp_all

/-- Update form of the CategoryCodes back-fill step. -/
theorem fillCategoryCodes_eq (cfg : CheckInConfig) :
    fillCategoryCodes cfg =
      { cfg with WebConnectivity :=
          { CategoryCodes := if cfg.WebConnectivity.CategoryCodes = none then some []
                             else cfg.WebConnectivity.CategoryCodes } } := by
  unfold fillCategoryCodes; split <;> simp_all

/-- Normal form of the check-in back-filling: field-wise independent
conditional updates (the seven source assignments touch pairwise distinct
fields, each guarded by the original value of its own field). -/
theorem checkInFillDefaults_eq (s : Session) (cfg : CheckInConfig) :
    checkInFillDefaults s cfg =
      { Platform := if cfg.Platform = "" then s.Platform else cfg.Platform,
        ProbeASN := if cfg.ProbeASN = "" then s.ProbeASNString else cfg.ProbeASN,
        ProbeCC := if cfg.ProbeCC = "" then s.ProbeCC else cfg.ProbeCC,
        RunType := if cfg.RunType = "" then "timed" else cfg.RunType,
        SoftwareName := if cfg.SoftwareName = "" then s.SoftwareName
                        else cfg.SoftwareName,
        SoftwareVersion := if cfg.SoftwareVersion = "" then s.SoftwareVersion
                           else cfg.SoftwareVersion,
        WebConnectivity :=
          { CategoryCodes := if cfg.WebConnectivity.CategoryCodes = none then some []
                             else cfg.WebConnectivity.CategoryCodes } } := by
  obtain ⟨P, A, C, R, N, V, W⟩ := cfg
  obtain ⟨CC⟩ := W
  simp only [checkInFillDefaults, fillPlatform_eq, fillProbeASN_eq,
    fillProbeCC_eq, fillRunType_eq, fillSoftwareName_eq,
    fillSoftwareVersion_eq, fillCategoryCodes_eq]

/-- C4: Session.CheckIn back-fills exactly the empty config fields before
forwarding to the probe-services client: Platform from the session's
platform, ProbeASN as "AS" followed by the decimal ASN, ProbeCC from the
session, RunType "timed", software name and version from the session, and
an empty category-code list when it was nil; every non-empty field is left
unchanged. -/
theorem checkIn_backfillsDefaults (s : Session) (cfg : CheckInConfig) :
    ((cfg.Platform = "" → (checkInFillDefaults s cfg).Platform = s.Platform) ∧
     (cfg.Platform ≠ "" → (checkInFillDefaults s cfg).Platform = cfg.Platform)) ∧
    ((cfg.ProbeASN = "" →
       (checkInFillDefaults s cfg).ProbeASN = "AS" ++ toString s.ProbeASN) ∧
     (cfg.ProbeASN ≠ "" → (checkInFillDefaults s cfg).ProbeASN = cfg.ProbeASN)) ∧
    ((cfg.ProbeCC = "" → (checkInFillDefaults s cfg).ProbeCC = s.ProbeCC) ∧
     (cfg.ProbeCC ≠ "" → (checkInFillDefaults s cfg).ProbeCC = cfg.ProbeCC)) ∧
    ((cfg.RunType = "" → (checkInFillDefaults s cfg).RunType = "timed") ∧
     (cfg.RunType ≠ "" → (checkInFillDefaults s cfg).RunType = cfg.RunType)) ∧
    ((cfg.SoftwareName = "" →
       (checkInFillDefaults s cfg).SoftwareName = s.softwareName) ∧
     (cfg.SoftwareName ≠ "" →
       (checkInFillDefaults s cfg).SoftwareName = cfg.SoftwareName)) ∧
    ((cfg.SoftwareVersion = "" →
       (checkInFillDefaults s cfg).SoftwareVersion = s.softwareVersion) ∧
     (cfg.SoftwareVersion ≠ "" →
       (checkInFillDefaults s cfg).SoftwareVersion = cfg.SoftwareVersion)) ∧
    ((cfg.WebConnectivity.CategoryCodes = none →
       (checkInFillDefaults s cfg).WebConnectivity.CategoryCodes = some []) ∧
     (cfg.WebConnectivity.CategoryCodes ≠ none →
       (checkInFillDefaults s cfg).WebConnectivity.CategoryCodes
         = cfg.WebConnectivity.CategoryCodes)) := by
  rw [checkInFillDefaults_eq]
  refine ⟨⟨?_, ?_⟩, ⟨?_, ?_⟩, ⟨?_, ?_⟩, ⟨?_, ?_⟩, ⟨?_, ?_⟩, ⟨?_, ?_⟩, ⟨?_, ?_⟩⟩ <;>
    intro h <;>
      simp [h, Session.ProbeASNString, Session.SoftwareName, Session.SoftwareVersion]

/-- Session with a cached Italian location, used as concrete witness data. -/
def sessionIT : Session :=
  { location := some { ASN := 30722, CountryCode := "IT",
                       NetworkName := "Vodafone Italia", ProbeIP := "1.2.3.4",
                       ResolverASN := 30722, ResolverIP := "5.6.7.8",
                       ResolverNetworkName := "Vodafone Italia" },
    softwareName := "miniooni", softwareVersion := "0.1.0-dev",
    platformName := "linux" }

/-- Fully empty check-in configuration, used as concrete witness data. -/
def emptyCheckInConfig : CheckInConfig :=
  { Platform := "", ProbeASN := "", ProbeCC := "", RunType := "",
    SoftwareName := "", SoftwareVersion := "",
    WebConnectivity := { CategoryCodes := none } }

/-- Witness for the check-in back-filling on the fully empty config against
the session with a cached Italian location: the defaulted ASN string,
country code, run type and category codes all appear. -/
theorem checkIn_backfillsDefaults_witness :
    (checkInFillDefaults sessionIT emptyCheckInConfig).ProbeASN = "AS30722" ∧
    (checkInFillDefaults sessionIT emptyCheckInConfig).ProbeCC = "IT" ∧
    (checkInFillDefaults sessionIT emptyCheckInConfig).RunType = "timed" ∧
    (checkInFillDefaults sessionIT emptyCheckInConfig).WebConnectivity.CategoryCodes
      = some [] := by
  have h := checkIn_backfillsDefaults sessionIT emptyCheckInConfig
  refine ⟨(h.2.1.1 rfl).trans (by decide), (h.2.2.1.1 rfl).trans (by decide),
    h.2.2.2.1.1 rfl, h.2.2.2.2.2.2.1 rfl⟩

/-- Benchmark oracle whose first pass fails wholesale and whose second pass
would succeed; it exhibits that the backend-selection code never runs a
second pass. -/
def twoPassOracle : Option GoErr → Nat → List Candidate := fun _ n =>
  if n = 0 then
    [{ Endpoint := { Address := "https://a.ooni.org", ServiceType := "https",
                     Front := "" },
       Duration := 100, Err := some (.mocked "connection refused"),
       TestHelpers := [] }]
  else
    [{ Endpoint := { Address := "https://b.ooni.org", ServiceType := "https",
                     Front := "" },
       Duration := 80, Err := none, TestHelpers := [] }]

/-- C5 counterexample: with a first benchmarking pass in which every
candidate fails and a second pass that would succeed,
MaybeLookupBackendsContext fails with ErrAllProbeServicesFailed right after
the first pass — no circumvention tactic is applied and no second pass is
run, contrary to the claim. -/
theorem maybeLookupBackends_noSecondPass :
    (Session.MaybeLookupBackendsContext twoPassOracle none {}).1
      = some GoErr.allProbeServicesFailed ∧
    (SelectBest (twoPassOracle none 1)).isSome = true :=
  ⟨rfl, rfl⟩

/-- C5 amended: backend selection performs a single benchmarking pass: its
result depends only on pass 0 of the oracle, and when that pass yields no
successful candidate it fails at once with ErrAllProbeServicesFailed,
incrementing only the selection-attempt counter. -/
theorem maybeLookupBackends_singlePass
    (tryAll tryAll2 : Option GoErr → Nat → List Candidate)
    (ctxErr : Option GoErr) (s : Session) :
    (tryAll ctxErr 0 = tryAll2 ctxErr 0 →
      Session.MaybeLookupBackendsContext tryAll ctxErr s
        = Session.MaybeLookupBackendsContext tryAll2 ctxErr s) ∧
    (s.selectedProbeService = none → SelectBest (tryAll ctxErr 0) = none →
      Session.MaybeLookupBackendsContext tryAll ctxErr s
        = (some .allProbeServicesFailed,
           { s with queryProbeServicesCount := s.queryProbeServicesCount + 1 })) := by
  constructor
  · intro h
    simp [Session.MaybeLookupBackendsContext, h]
  · intro h1 h2
    simp [Session.MaybeLookupBackendsContext, h1, h2]

/-- Witness for the single-pass behaviour on the concrete failing oracle. -/
theorem maybeLookupBackends_singlePass_witness :
    Session.MaybeLookupBackendsContext twoPassOracle none {}
      = (some .allProbeServicesFailed, { queryProbeServicesCount := 1 }) := by
  have h := maybeLookupBackends_singlePass twoPassOracle twoPassOracle none {}
  exact h.2 rfl rfl

/-- C6 counterexample: MaybeLookupBackendsContext has no explicit context
pre-check. With the context already cancelled at entry and a probe service
already selected, it returns nil — not the context's error — so the claim
that every context-accepting operation returns the context's error via an
explicit pre-check is false for this operation. -/
theorem maybeLookupBackends_noCtxPrecheck :
    Session.MaybeLookupBackendsContext (fun _ _ => []) (some GoErr.ctxCanceled)
      { selectedProbeService :=
          some { Address := "https://ps.ooni.org", ServiceType := "https",
                 Front := "" } }
      = (none,
         { selectedProbeService :=
             some { Address := "https://ps.ooni.org", ServiceType := "https",
                    Front := "" } }) ∧
    (Session.MaybeLookupBackendsContext (fun _ _ => []) (some GoErr.ctxCanceled)
      { selectedProbeService :=
          some { Address := "https://ps.ooni.org", ServiceType := "https",
                 Front := "" } }).1 ≠ some GoErr.ctxCanceled :=
  ⟨rfl, by decide⟩

/-- C6 amended: MaybeLookupLocationContext and NewProbeServicesClient check
the context first and return its error unchanged, with untouched session
state, whenever it is already cancelled at entry; MaybeLookupBackendsContext
performs no such pre-check (see the counterexample: it can return nil under
a cancelled context). -/
theorem ctxPrecheck_location_and_client (e : GoErr)
    (lookup : Except GoErr GeoResults)
    (tryAll : Option GoErr → Nat → List Candidate) (s : Session) :
    Session.MaybeLookupLocationContext lookup (some e) s = (some e, s) ∧
    Session.NewProbeServicesClient tryAll lookup (some e) s = (.error e, s) :=
  ⟨rfl, rfl⟩

/-- C7: MaybeLookupLocationContext is idempotent. Once a call under a live
context has returned nil — in particular after a first successful lookup
cached the location — every subsequent call, whatever its lookup oracle
would produce, returns nil and leaves the session state, in particular the
cached location, exactly as the first call left it. -/
theorem maybeLookupLocation_idempotent
    (lookup1 lookup2 : Except GoErr GeoResults) (s s1 : Session)
    (h : Session.MaybeLookupLocationContext lookup1 none s = (none, s1)) :
    Session.MaybeLookupLocationContext lookup2 none s1 = (none, s1) := by
  unfold Session.MaybeLookupLocationContext at h ⊢
  cases hl : s.location with
  | some l =>
    rw [hl] at h
    simp only [Prod.mk.injEq] at h
    rw [← h.2, hl]
  | none =>
    rw [hl] at h
    cases hk : lookup1 with
    | error e => rw [hk] at h; simp at h
    | ok loc =>
      rw [hk] at h
      simp only [Prod.mk.injEq] at h
      rw [← h.2]

/-- Location value used as concrete witness data for the lookup theorems. -/
def geoIT : GeoResults :=
  { ASN := 30722, CountryCode := "IT", NetworkName := "Vodafone Italia",
    ProbeIP := "1.2.3.4", ResolverASN := 30722, ResolverIP := "5.6.7.8",
    ResolverNetworkName := "Vodafone Italia" }

/-- Witness for idempotence: after the pristine session has cached geoIT,
a second call whose lookup would fail still returns nil and changes
nothing. -/
theorem maybeLookupLocation_idempotent_witness :
    Session.MaybeLookupLocationContext (.error (.mocked "network down")) none
      { location := some geoIT } = (none, { location := some geoIT }) :=
  maybeLookupLocation_idempotent (.ok geoIT) (.error (.mocked "network down"))
    {} { location := some geoIT } rfl

/-- C8: with no cached location every identity accessor returns its
compile-time default (DefaultProbeASN, DefaultProbeCC = "ZZ", and so on),
and with a cached location each accessor returns the corresponding cached
field. -/
theorem accessors_locationCases (s : Session) :
    (s.location = none →
      s.ProbeASN = DefaultProbeASN ∧ s.ProbeCC = DefaultProbeCC ∧
      s.ProbeNetworkName = DefaultProbeNetworkName ∧
      s.ProbeIP = DefaultProbeIP ∧ s.ResolverASN = DefaultResolverASN ∧
      s.ResolverIP = DefaultResolverIP ∧
      s.ResolverNetworkName = DefaultResolverNetworkName) ∧
    (∀ loc, s.location = some loc →
      s.ProbeASN = loc.ASN ∧ s.ProbeCC = loc.CountryCode ∧
      s.ProbeNetworkName = loc.NetworkName ∧ s.ProbeIP = loc.ProbeIP ∧
      s.ResolverASN = loc.ResolverASN ∧ s.ResolverIP = loc.ResolverIP ∧
      s.ResolverNetworkName = loc.ResolverNetworkName) := by
  constructor
  · intro h
    simp [Session.ProbeASN, Session.ProbeCC, Session.ProbeNetworkName,
      Session.ProbeIP, Session.ResolverASN, Session.ResolverIP,
      Session.ResolverNetworkName, h]
  · intro loc h
    simp [Session.ProbeASN, Session.ProbeCC, Session.ProbeNetworkName,
      Session.ProbeIP, Session.ResolverASN, Session.ResolverIP,
      Session.ResolverNetworkName, h]

/-- Witness for the accessors: the pristine session reports the "ZZ"
default country code and the cached session reports "IT". -/
theorem accessors_locationCases_witness :
    Session.ProbeCC {} = "ZZ" ∧
    Session.ProbeCC { location := some geoIT } = "IT" := by
  constructor
  · exact ((accessors_locationCases {}).1 rfl).2.1.trans (by decide)
  · exact (((accessors_locationCases { location := some geoIT }).2 geoIT rfl).2.1).trans
      (by decide)

/-- C9: when the context is live and the lookup fails,
MaybeLookupLocationContext returns that error and leaves the session — in
particular the nil location — unchanged, so the failure is not cached and a
subsequent call performs the lookup again (here: a succeeding retry caches
its result). -/
theorem maybeLookupLocation_failureNotCached (e : GoErr) (s : Session)
    (h : s.location = none) :
    Session.MaybeLookupLocationContext (.error e) none s = (some e, s) ∧
    (∀ loc, Session.MaybeLookupLocationContext (.ok loc) none s
      = (none, { s with location := some loc })) := by
  constructor
  · simp [Session.MaybeLookupLocationContext, h]
  · intro loc
    simp [Session.MaybeLookupLocationContext, h]

/-- Witness for the failure path on the pristine session: the error is
returned with the location still nil, and the succeeding retry caches. -/
theorem maybeLookupLocation_failureNotCached_witness :
    Session.MaybeLookupLocationContext (.error (.mocked "lookup failed")) none {}
      = (some (.mocked "lookup failed"), {}) ∧
    Session.MaybeLookupLocationContext (.ok geoIT) none {}
      = (none, { location := some geoIT }) := by
  have h := maybeLookupLocation_failureNotCached (.mocked "lookup failed") {} rfl
  exact ⟨h.1, h.2 geoIT⟩

/-- C10: Session.CheckIn mutates the caller's config in place through the
passed-in pointer: when the location lookup or the client construction
fails the config is left completely unchanged, and on the success path the
back-filled config is written into the caller's config and stays there
whatever the remote check-in call returns — including when it errors. -/
theorem checkIn_configMutation
    (lookupLoc : Session → Option GoErr × Session)
    (newClient : Session → Except GoErr Client × Session)
    (remote : Client → CheckInConfig → Except GoErr CheckInInfo)
    (s : Session) (cfg : CheckInConfig) :
    (∀ e s1, lookupLoc s = (some e, s1) →
      Session.CheckIn lookupLoc newClient remote s cfg = (.error e, s1, cfg)) ∧
    (∀ s1, lookupLoc s = (none, s1) →
      (∀ e s2, newClient s1 = (.error e, s2) →
        Session.CheckIn lookupLoc newClient remote s cfg = (.error e, s2, cfg)) ∧
      (∀ c s2, newClient s1 = (.ok c, s2) →
        Session.CheckIn lookupLoc newClient remote s cfg
          = (remote c (checkInFillDefaults s2 cfg), s2,
             checkInFillDefaults s2 cfg))) := by
  constructor
  · intro e s1 h
    simp [Session.CheckIn, h]
  · intro s1 h
    constructor
    · intro e s2 h2
      simp [Session.CheckIn, h, h2]
    · intro c s2 h2
      simp [Session.CheckIn, h, h2]

/-- Witness for the config mutation: with a trivially succeeding lookup and
client and a remote call that fails, CheckIn still returns the failure
while the caller's config has been back-filled. -/
theorem checkIn_configMutation_witness :
    Session.CheckIn (fun s => (none, s))
      (fun s => (.ok { endpoint := { Address := "https://ps.ooni.org",
                                     ServiceType := "https", Front := "" } }, s))
      (fun _ _ => .error (.mocked "api down"))
      sessionIT emptyCheckInConfig
      = (.error (.mocked "api down"), sessionIT,
         checkInFillDefaults sessionIT emptyCheckInConfig) := by
  have h := checkIn_configMutation (fun s => (none, s))
    (fun s => (.ok { endpoint := { Address := "https://ps.ooni.org",
                                   ServiceType := "https", Front := "" } }, s))
    (fun _ _ => .error (.mocked "api down")) sessionIT emptyCheckInConfig
  exact (h.2 sessionIT rfl).2
    { endpoint := { Address := "https://ps.ooni.org", ServiceType := "https",
                    Front := "" } } sessionIT rfl

end ProbeCli
